import Mathlib

/-!
# Verification of `morph_monitor.py` (lovivi/monitor)

A shallow embedding of the core of `src/morph_monitor.py`: the
`MorphTransactionMonitor` class (constructor, classifier
`is_target_pair_transaction`, the poll cycle `analyze_transactions`,
the persistence helpers `load_data` / `save_data`) and the status route
`get_stats`.

Modelling conventions:
* Python `datetime` instants are modelled as `Int` (seconds since an
  arbitrary epoch).  `datetime.isoformat` / `datetime.fromisoformat` are
  abstracted to an injective textual encoding `isoformat` with exact
  inverse `fromiso`; no claim inspects the actual ISO text, only the
  datetime/string type distinction and the round trip matter.
* A JSON value that may be a string or a `datetime` in the Python dicts
  is modelled by `PyTime`.
* Fallible Python code (statements that can raise `AttributeError`,
  `TypeError` or `KeyError`) is modelled in `Except PyError`.
* Python truthiness of the `to` field (absent key, `null`, or an
  object) is modelled by `ToField`; an object whose `hash`/`name` keys
  are absent is identified with the object carrying `none` in those
  fields.
* File-system effects of `save_data` are modelled separately as a list
  of primitive operations (`FsOp`) applied to a path-to-content map, so
  that atomicity can be stated.
-/

/-- Error values standing for the Python exceptions that the embedded
code can raise. -/
inductive PyError where
  | attributeError
  | typeError
  | keyError
  deriving DecidableEq, Repr

/-- A value that in the Python dicts is either a `datetime` instant or
an ISO-formatted string (the two states `start_time` moves between). -/
inductive PyTime where
  | dt (t : Int)
  | str (s : String)
  deriving DecidableEq, Repr

/-- Abstraction of `datetime.isoformat` on a timezone-aware instant: an
injective textual encoding of the instant. -/
def isoformat (t : Int) : String := toString t

/-- Accumulator pass of the decimal parser below. -/
def digitsToNat : List Char → Nat → Nat
  | [], acc => acc
  | c :: cs, acc => digitsToNat cs (acc * 10 + (c.toNat - 48))

/-- Abstraction of `datetime.fromisoformat` (after the `'Z' → '+00:00'`
normalisation in `load_data`): exact inverse of `isoformat` on its
image. -/
def fromiso (s : String) : Int :=
  match s.data with
  | '-' :: cs => - (digitsToNat cs 0 : Int)
  | cs => (digitsToNat cs 0 : Int)

/-- Python `str.lower()` on one character (the addresses and hashes
involved are ASCII). -/
def lowerChar (c : Char) : Char :=
  if 'A' ≤ c ∧ c ≤ 'Z' then Char.ofNat (c.toNat + 32) else c

/-- Python `str.lower()` (ASCII case folding, which covers every string
the source lowercases). -/
def py_lower (s : String) : String := ⟨s.data.map lowerChar⟩

/-- Python truthiness of a `start_time` slot: `None` and `""` are
falsy, a `datetime` and a non-empty string are truthy. -/
def start_time_truthy : Option PyTime → Bool
  | none => false
  | some (.dt _) => true
  | some (.str s) => !(s == "")

/-- `now - start_time` in `get_stats` line 257: subtracting a string
from a `datetime` raises `TypeError`; subtracting a `datetime` yields
the elapsed duration. -/
def datetime_sub (now : Int) : PyTime → Except PyError Int
  | .dt t => .ok (now - t)
  | .str _ => .error .typeError

/-- `start_time.isoformat()` in `get_stats` line 262: calling
`isoformat` on a string raises `AttributeError`. -/
def pytime_isoformat : PyTime → Except PyError String
  | .dt t => .ok (isoformat t)
  | .str _ => .error .attributeError

/-- Abstraction of `str(timedelta)` in `get_stats` line 257; the claims
never inspect this text. -/
def timedelta_str (seconds : Int) : String := toString seconds

/-- The `"to"` field of a transaction JSON object: absent key, JSON
`null`, or an object with optional `hash` and `name` keys.  An empty
object `\x7b\x7d` is identified with `obj none none`. -/
inductive ToField where
  | absent
  | null
  | obj (hash : Option String) (name : Option String)
  deriving DecidableEq, Repr

/-- Python truthiness of `tx.get("to")`: an absent key gives `None`
(falsy), JSON `null` is falsy, and a dict is truthy iff non-empty. -/
def ToField.truthy : ToField → Bool
  | .absent => false
  | .null => false
  | .obj h n => h.isSome || n.isSome

/-- `tx["to"].get("hash", d)` on a truthy `to`; total with default on
the falsy constructors, which the callers guard against. -/
def ToField.hashD (d : String) : ToField → String
  | .obj h _ => h.getD d
  | _ => d

/-- `tx.get("to", \x7b\x7d).get("hash", "Unknown")` at line 194 of the
source: an absent key falls back to the empty dict (giving
`"Unknown"`), but an explicit JSON `null` makes the inner `.get` an
attribute access on `None` and raises `AttributeError`. -/
def ToField.get_hash_unknown : ToField → Except PyError String
  | .absent => .ok "Unknown"
  | .null => .error .attributeError
  | .obj h _ => .ok (h.getD "Unknown")

/-- `tx.get("to", \x7b\x7d).get("name", "Unknown")` at line 195 of the
source, with the same `AttributeError` behaviour on JSON `null`. -/
def ToField.get_name_unknown : ToField → Except PyError String
  | .absent => .ok "Unknown"
  | .null => .error .attributeError
  | .obj _ n => .ok (n.getD "Unknown")

/-- A transaction item of the explorer page, with the fields the
monitor reads.  `Option` fields model possibly-absent JSON keys. -/
structure Tx where
  hash : String
  timestamp : String
  method : Option String
  «to» : ToField
  value : Option String
  status : Option String
  gasUsed : Option String
  deriving DecidableEq, Repr

/-- The abnormal-transaction record built at lines 190–199. -/
structure AbnormalTx where
  hash : String
  timestamp : String
  method : String
  to_address : String
  to_name : String
  value : String
  status : String
  gas_used : String
  deriving DecidableEq, Repr

/-- The `monitoring` block of the persisted record. -/
structure Monitoring where
  start_time : Option PyTime
  last_processed_tx : Option String
  total_transactions : Nat
  abnormal_transactions : Nat
  deriving DecidableEq, Repr

/-- The `config` block of the persisted record.  `token_addresses`
values are `Option String` because an unknown token symbol stores
`None`. -/
structure Config where
  monitored_address : String
  base_token : String
  quote_token : String
  token_addresses : List (String × Option String)
  dex_contracts : List (String × String)
  deriving DecidableEq, Repr

/-- The persisted record (`transaction_data.json` after JSON parsing).
`monitoring` is an `Option` because a legacy record may lack the key;
`get_stats` repairs that case and `analyze_transactions` line 167 would
raise `KeyError` on it. -/
structure Data where
  config : Config
  monitoring : Option Monitoring
  abnormal_txs : List AbnormalTx
  deriving DecidableEq, Repr

/-- `MorphTransactionMonitor.TOKEN_ADDRESSES` (class constant): token
symbol to contract address. -/
def TOKEN_ADDRESSES : List (String × String) :=
  [("ETH", "0x5300000000000000000000000000000000000011"),
   ("MPH", "0x579C032A137D796f29b14AdEcb58C2E56B14e367")]

/-- `MorphTransactionMonitor.DEX_CONTRACTS` (class constant): known DEX
router name to contract address; the source applies `.lower()` to the
literals. -/
def DEX_CONTRACTS : List (String × String) :=
  [("UniversalRouter", py_lower "0xb789922D715475F419b7CB47B6155bF7a2ACECD6"),
   ("UniswapV2Router02", py_lower "0x81606E6f8aAD6C75c2f383Ea595c2b9f8ce8aE3a")]

/-- Python `dict.get(k)`: first value bound to `k`, or `None`. -/
def dict_get (l : List (String × String)) (k : String) : Option String :=
  (l.find? (fun p => p.fst == k)).map (·.snd)

/-- The monitor object as built by `__init__` (lines 38–49); the I/O
fields (`api_url`, `data_file`, the data-file bootstrap) are carried by
the file model, not by the object. -/
structure MorphTransactionMonitor where
  address : String
  base_token : String
  quote_token : String
  base_token_address : Option String
  quote_token_address : Option String
  deriving DecidableEq, Repr

/-- `__init__`: lowercases the address and looks the token symbols up
in `TOKEN_ADDRESSES` with `dict.get`, so an unknown symbol silently
stores `None` and construction always succeeds. -/
def MorphTransactionMonitor.init (address base_token quote_token : String) :
    MorphTransactionMonitor :=
  { address := py_lower address
    base_token := base_token
    quote_token := quote_token
    base_token_address := dict_get TOKEN_ADDRESSES base_token
    quote_token_address := dict_get TOKEN_ADDRESSES quote_token }

/-- `is_target_pair_transaction` (lines 116–133): `False` on a falsy
`to`; otherwise compares the lowercased destination hash against the
DEX router addresses and then against
`[self.base_token_address.lower(), self.quote_token_address.lower()]`,
which raises `AttributeError` when either configured token address is
`None`. -/
def MorphTransactionMonitor.is_target_pair_transaction
    (m : MorphTransactionMonitor) (tx : Tx) : Except PyError Bool :=
  if !tx.«to».truthy then .ok false
  else
    let to_address := py_lower (tx.«to».hashD "")
    if (DEX_CONTRACTS.map (·.snd)).contains to_address then .ok true
    else
      match m.base_token_address, m.quote_token_address with
      | some b, some q =>
          .ok (to_address == py_lower b || to_address == py_lower q)
      | _, _ => .error .attributeError

/-- The `abnormal_txs[-100:]` slice at line 204 (and `[-10:]` at
line 283): the last `n` elements of a list, in order. -/
def lastN (n : Nat) (xs : List α) : List α := (xs.reverse.take n).reverse

/-- The abnormal record built at lines 190–199; raises
`AttributeError` when `tx["to"]` is JSON `null` (line 194). -/
def build_abnormal_tx (tx : Tx) : Except PyError AbnormalTx :=
  match tx.«to».get_hash_unknown with
  | .error e => .error e
  | .ok to_addr =>
  match tx.«to».get_name_unknown with
  | .error e => .error e
  | .ok to_name =>
  .ok { hash := tx.hash
        timestamp := tx.timestamp
        method := tx.method.getD "Unknown"
        to_address := to_addr
        to_name := to_name
        value := tx.value.getD "0"
        status := tx.status.getD "Unknown"
        gas_used := tx.gasUsed.getD "Unknown" }

/-- The scan at lines 170–175: walk the page newest-first, collecting
items until one's hash equals `last_processed_tx` (that item excluded);
with `last_processed_tx = None` the comparison never succeeds and the
whole page is collected. -/
def collectNew (last : Option String) : List Tx → List Tx
  | [] => []
  | tx :: rest =>
      if last = some tx.hash then [] else tx :: collectNew last rest

/-- The body of the processing loop at lines 182–204 for one new
transaction: increment `total_transactions`, classify, and on an
abnormal transaction increment `abnormal_transactions`, build the
record, append it and truncate to the last 100. -/
def MorphTransactionMonitor.process_new_tx (m : MorphTransactionMonitor)
    (tx : Tx) (mon : Monitoring) (abn : List AbnormalTx) :
    Except PyError (Monitoring × List AbnormalTx) :=
  let mon := { mon with total_transactions := mon.total_transactions + 1 }
  match m.is_target_pair_transaction tx with
  | .error e => .error e
  | .ok true => .ok (mon, abn)
  | .ok false =>
      let mon := { mon with
                   abnormal_transactions := mon.abnormal_transactions + 1 }
      match build_abnormal_tx tx with
      | .error e => .error e
      | .ok r => .ok (mon, lastN 100 (abn ++ [r]))

/-- The processing loop at lines 182–204 over a list of transactions
(already reversed to chronological order by the caller). -/
def MorphTransactionMonitor.process_all (m : MorphTransactionMonitor) :
    List Tx → Monitoring → List AbnormalTx →
    Except PyError (Monitoring × List AbnormalTx)
  | [], mon, abn => .ok (mon, abn)
  | tx :: rest, mon, abn =>
      match m.process_new_tx tx mon abn with
      | .error e => .error e
      | .ok (mon1, abn1) => m.process_all rest mon1 abn1

/-- Lines 166–213 of `analyze_transactions`, after the fetch succeeded
and the record was loaded: repair an unset `start_time` (line 167),
collect the new transactions (lines 170–175), advance
`last_processed_tx` to the newest item's hash (lines 178–179), process
the new transactions oldest-first (lines 182–204).  Accessing
`data["monitoring"]` on a record without the key raises `KeyError`. -/
def MorphTransactionMonitor.analyze_core (m : MorphTransactionMonitor)
    (now : Int) (items : List Tx) (d : Data) : Except PyError Data :=
  match d.monitoring with
  | none => .error .keyError
  | some mon0 =>
      let mon0 := if start_time_truthy mon0.start_time then mon0
                  else { mon0 with start_time := some (.dt now) }
      let newTxs := collectNew mon0.last_processed_tx items
      let mon1 := match items with
                  | [] => mon0
                  | tx0 :: _ =>
                      { mon0 with last_processed_tx := some tx0.hash }
      match m.process_all newTxs.reverse mon1 d.abnormal_txs with
      | .error e => .error e
      | .ok (mon2, abn2) =>
          .ok { d with monitoring := some mon2, abnormal_txs := abn2 }

/-- The in-memory effect of `save_data` (lines 89–99): when
`monitoring.start_time` is a `datetime`, it is replaced in place by its
`isoformat()` string before the record is written; the caller's record
keeps that mutation. -/
def save_data_convert (d : Data) : Data :=
  match d.monitoring with
  | some mon =>
      match mon.start_time with
      | some (.dt t) =>
          let mon1 := { mon with start_time := some (.str (isoformat t)) }
          { d with monitoring := some mon1 }
      | _ => d
  | none => d

/-- The conversion in `load_data` (lines 80–83): a truthy `start_time`
string is parsed back into a `datetime` instant. -/
def load_data_convert (d : Data) : Data :=
  match d.monitoring with
  | some mon =>
      match mon.start_time with
      | some (.str s) =>
          if s == "" then d
          else
            let mon1 := { mon with start_time := some (.dt (fromiso s)) }
            { d with monitoring := some mon1 }
      | _ => d
  | none => d

/-- The fallback record built at lines 146–164 when `load_data`
failed. -/
def MorphTransactionMonitor.fresh_data (m : MorphTransactionMonitor)
    (now : Int) : Data :=
  { config := { monitored_address := m.address
                base_token := m.base_token
                quote_token := m.quote_token
                token_addresses := [(m.base_token, m.base_token_address),
                                    (m.quote_token, m.quote_token_address)]
                dex_contracts := DEX_CONTRACTS }
    monitoring := some { start_time := some (.dt now)
                         last_processed_tx := none
                         total_transactions := 0
                         abnormal_transactions := 0 }
    abnormal_txs := [] }

/-- The explorer response after JSON parsing: `items` is `none` when
the `"items"` key is missing (an empty response object included, which
is also falsy). -/
structure PageResp where
  items : Option (List Tx)
  deriving DecidableEq, Repr

/-- `analyze_transactions` (lines 135–213) as a function from the fetch
result and the current parsed file content (`none` when `load_data`
failed) to the record written back, `.ok none` meaning the cycle
returned early without writing (lines 138–140: fetch failure or missing
`"items"` key is logged, not raised), and `.error` meaning an exception
escaped the cycle before the save. -/
def MorphTransactionMonitor.analyze_transactions
    (m : MorphTransactionMonitor) (now : Int) (fetched : Option PageResp)
    (store : Option Data) : Except PyError (Option Data) :=
  match fetched with
  | none => .ok none
  | some page =>
      match page.items with
      | none => .ok none
      | some items =>
          let d0 := match store with
                    | some d => load_data_convert d
                    | none => m.fresh_data now
          match m.analyze_core now items d0 with
          | .error e => .error e
          | .ok d1 => .ok (some (save_data_convert d1))

/-- Python `d[k]` on the `token_addresses` dict: the bound value, or
`KeyError` when the key is absent. -/
def dict_index (l : List (String × Option String)) (k : String) :
    Except PyError (Option String) :=
  match l.find? (fun p => p.fst == k) with
  | some p => .ok p.snd
  | none => .error .keyError

/-- The response body assembled by the `/stats` route (lines 260–284),
restricted to the fields the embedded record determines; the
`abnormal_percentage` string (floating-point formatting) is omitted, no
claim mentions it. -/
structure Stats where
  start_time : Option String
  current_time : String
  monitoring_duration : String
  monitored_address : String
  base_token : String
  base_token_address : Option String
  quote_token : String
  quote_token_address : Option String
  dex_contracts : List (String × String)
  total_transactions : Nat
  abnormal_transactions : Nat
  recent_abnormal_transactions : List AbnormalTx
  deriving DecidableEq, Repr

/-- Result of the `/stats` route: the 404 branch or the stats body. -/
inductive StatsResult where
  | notFound
  | ok (s : Stats)
  deriving DecidableEq, Repr

/-- `get_stats` (lines 234–285) on the current parsed file content
(`none` when the file is absent or `load_data` failed): a missing
`monitoring` block is recreated with `start_time = now` and written
back via `save_data` (lines 245–252) — which converts the fresh
`datetime` to its string form in place — before the route computes
`now - start_time` (line 257) and renders the body in source order. -/
def get_stats (now : Int) (store : Option Data) :
    Except PyError StatsResult :=
  match store with
  | none => .ok .notFound
  | some d0 =>
      let d0 := load_data_convert d0
      let d := match d0.monitoring with
               | none =>
                   let mon0 : Monitoring := ⟨some (.dt now), none, 0, 0⟩
                   save_data_convert { d0 with monitoring := some mon0 }
               | some _ => d0
      match d.monitoring with
      | none => .error .keyError
      | some mon =>
          let durationE : Except PyError String :=
            if start_time_truthy mon.start_time then
              match mon.start_time with
              | some st => (datetime_sub now st).map timedelta_str
              | none => .error .typeError
            else .ok "Not started"
          match durationE with
          | .error e => .error e
          | .ok duration =>
          let stIsoE : Except PyError (Option String) :=
            if start_time_truthy mon.start_time then
              match mon.start_time with
              | some st => (pytime_isoformat st).map some
              | none => .error .attributeError
            else .ok none
          match stIsoE with
          | .error e => .error e
          | .ok st_iso =>
          match dict_index d.config.token_addresses d.config.base_token with
          | .error e => .error e
          | .ok base_addr =>
          match dict_index d.config.token_addresses d.config.quote_token with
          | .error e => .error e
          | .ok quote_addr =>
          .ok (.ok { start_time := st_iso
                     current_time := isoformat now
                     monitoring_duration := duration
                     monitored_address := d.config.monitored_address
                     base_token := d.config.base_token
                     base_token_address := base_addr
                     quote_token := d.config.quote_token
                     quote_token_address := quote_addr
                     dex_contracts := d.config.dex_contracts
                     total_transactions := mon.total_transactions
                     abnormal_transactions := mon.abnormal_transactions
                     recent_abnormal_transactions :=
                       lastN 10 d.abnormal_txs })

/-- A primitive file-system operation, for stating what `save_data`
does to the data file. -/
inductive FsOp where
  | openTrunc (path : String)
  | writeAll (path : String) (content : String)
  | rename (src dst : String)
  deriving DecidableEq, Repr

/-- Whether an operation is a rename into place (the replace step of a
write-then-replace scheme). -/
def FsOp.is_rename : FsOp → Bool
  | .rename _ _ => true
  | _ => false

/-- A file system as a map from path to content (`none` = absent). -/
def FS : Type := String → Option String

/-- Effect of one primitive operation on the file system. -/
def applyOp (fs : FS) : FsOp → FS
  | .openTrunc p => fun q => if q = p then some "" else fs q
  | .writeAll p c => fun q => if q = p then some c else fs q
  | .rename src dst =>
      fun q => if q = dst then fs src
               else if q = src then none else fs q

/-- Effect of a sequence of operations, first to last. -/
def applyOps (ops : List FsOp) (fs : FS) : FS :=
  ops.foldl applyOp fs

/-- The file operations performed by `save_data` (lines 96–97):
`open(self.data_file, "w")` truncates the data file in place, then
`json.dump` writes the serialized record into it.  There is no
temporary file and no rename. -/
def save_data_ops (dataFile content : String) : List FsOp :=
  [.openTrunc dataFile, .writeAll dataFile content]


-- Equality on `Except` results is decidable; used to evaluate the
-- embedded functions on concrete inputs.
deriving instance DecidableEq for Except

/-- The abnormal record that processing one transaction appends, when
it appends one: the transaction is classified and found not to touch
the monitored pair, and the record builds without an exception. -/
def abnormal_record_of (m : MorphTransactionMonitor) (tx : Tx) :
    Option AbnormalTx :=
  match m.is_target_pair_transaction tx with
  | .ok false =>
      match build_abnormal_tx tx with
      | .ok r => some r
      | .error _ => none
  | _ => none

/-- The counter invariant of the spec: in the monitoring block, the
abnormal count never exceeds the total count. -/
def counter_inv (d : Data) : Prop :=
  ∀ mon, d.monitoring = some mon →
    mon.abnormal_transactions ≤ mon.total_transactions

/-! ## Concrete fixtures -/

/-- Fixture: the monitor for the default ETH/MPH pair. -/
def mETH : MorphTransactionMonitor :=
  MorphTransactionMonitor.init "0xMonitoredAddr" "ETH" "MPH"

/-- Fixture: a monitor constructed with an unknown base-token symbol. -/
def mDOGE : MorphTransactionMonitor :=
  MorphTransactionMonitor.init "0xMonitoredAddr" "DOGE" "MPH"

/-- Fixture: a transaction with the given hash and destination. -/
def mkTx (h : String) (t : ToField) : Tx :=
  { hash := h
    timestamp := "2024-01-01T00:00:00Z"
    method := some "transfer"
    «to» := t
    value := some "1"
    status := some "ok"
    gasUsed := some "21000" }

def txA : Tx := mkTx "0xA" .absent

def txB : Tx := mkTx "0xB" (.obj (some "0xDEAD") (some "SomeContract"))

def txC : Tx := mkTx "0xC" .absent

def txD : Tx := mkTx "0xD" .absent

/-- Fixture: a page of four transactions, newest first. -/
def pageABCD : List Tx := [txA, txB, txC, txD]

/-- Fixture: a transaction whose destination is an arbitrary unrelated
address (not a DEX router, not a token contract). -/
def txOther : Tx := mkTx "0xdead01" (.obj (some "0x1234567890abcdef") none)

/-- Fixture: a transaction whose destination is the UniversalRouter
address in its original mixed case. -/
def txRouter : Tx :=
  mkTx "0xR" (.obj (some "0xB789922D715475F419b7CB47B6155bF7a2ACECD6")
                   (some "UniversalRouter"))

/-- Fixture: the persisted config block for the ETH/MPH monitor. -/
def cfg0 : Config :=
  { monitored_address := "0xmonitoredaddr"
    base_token := "ETH"
    quote_token := "MPH"
    token_addresses :=
      [("ETH", some "0x5300000000000000000000000000000000000011"),
       ("MPH", some "0x579C032A137D796f29b14AdEcb58C2E56B14e367")]
    dex_contracts := DEX_CONTRACTS }

/-- Fixture: a monitoring block whose high-water mark is `"0xC"`. -/
def monFix : Monitoring :=
  { start_time := some (.dt 100)
    last_processed_tx := some "0xC"
    total_transactions := 7
    abnormal_transactions := 3 }

/-- Fixture: a persisted record with high-water mark `"0xC"`. -/
def dFix : Data :=
  { config := cfg0, monitoring := some monFix, abnormal_txs := [] }

def recA : AbnormalTx :=
  { hash := "0xA"
    timestamp := "2024-01-01T00:00:00Z"
    method := "transfer"
    to_address := "Unknown"
    to_name := "Unknown"
    value := "1"
    status := "ok"
    gas_used := "21000" }

def recB : AbnormalTx :=
  { hash := "0xB"
    timestamp := "2024-01-01T00:00:00Z"
    method := "transfer"
    to_address := "0xDEAD"
    to_name := "SomeContract"
    value := "1"
    status := "ok"
    gas_used := "21000" }

/-- The record produced by the analysis core on `pageABCD` from
`dFix`. -/
def d1Fix : Data :=
  { config := cfg0
    monitoring := some { start_time := some (.dt 100)
                         last_processed_tx := some "0xA"
                         total_transactions := 9
                         abnormal_transactions := 5 }
    abnormal_txs := [recB, recA] }

/-- The record written back by the full cycle on `pageABCD` from
`dFix` (the saved form carries the stringified start time). -/
def d1FixSaved : Data :=
  { config := cfg0
    monitoring := some { start_time := some (.str (isoformat 100))
                         last_processed_tx := some "0xA"
                         total_transactions := 9
                         abnormal_transactions := 5 }
    abnormal_txs := [recB, recA] }

/-- Fixture: a legacy persisted record without the `monitoring` key. -/
def dNoMonitoring : Data :=
  { config := cfg0, monitoring := none, abnormal_txs := [] }

/-- Fixture: a persisted record whose `start_time` is `null`. -/
def dNullStart : Data :=
  { config := cfg0
    monitoring := some { start_time := none
                         last_processed_tx := none
                         total_transactions := 3
                         abnormal_transactions := 1 }
    abnormal_txs := [] }

/-- Fixture: a file system whose data file holds a previous record. -/
def fsOld : FS :=
  fun p => if p = "transaction_data.json" then some "OLD" else none

/-! ## Helper lemmas -/

theorem lastN_length_le (n : Nat) (xs : List α) : (lastN n xs).length ≤ n := by
  simp only [lastN, List.length_reverse, List.length_take]
  exact Nat.min_le_left ..

theorem lastN_of_length_le (n : Nat) (xs : List α) (h : xs.length ≤ n) :
    lastN n xs = xs := by
  simp only [lastN]
  rw [List.take_of_length_le (by simpa using h), List.reverse_reverse]

theorem take_append_take (n : Nat) (u v : List α) :
    (u ++ v.take n).take n = (u ++ v).take n := by
  rw [List.take_append_eq_append_take, List.take_append_eq_append_take,
      List.take_take, Nat.min_eq_left (Nat.sub_le n u.length)]

theorem lastN_append_lastN (n : Nat) (a b : List α) :
    lastN n (lastN n a ++ b) = lastN n (a ++ b) := by
  simp only [lastN, List.reverse_append, List.reverse_reverse]
  rw [take_append_take]

theorem lastN_eq_drop (n : Nat) (xs : List α) :
    lastN n xs = xs.drop (xs.length - n) := by
  simp only [lastN]
  rw [List.reverse_take, List.length_reverse, List.reverse_reverse]

theorem collectNew_eq_takeWhile (last : Option String) (items : List Tx) :
    collectNew last items
      = items.takeWhile (fun tx => !(decide (last = some tx.hash))) := by
  induction items with
  | nil => rfl
  | cons tx rest ih =>
      simp only [collectNew, List.takeWhile]
      by_cases h : last = some tx.hash
      · simp [h]
      · simp [h, ih]

theorem process_new_tx_ok (m : MorphTransactionMonitor) (tx : Tx)
    (mon mon1 : Monitoring) (abn abn1 : List AbnormalTx)
    (h : m.process_new_tx tx mon abn = .ok (mon1, abn1)) :
    mon1.start_time = mon.start_time
    ∧ mon1.last_processed_tx = mon.last_processed_tx
    ∧ mon1.total_transactions = mon.total_transactions + 1
    ∧ ((abnormal_record_of m tx = none
        ∧ mon1.abnormal_transactions = mon.abnormal_transactions
        ∧ abn1 = abn)
       ∨ (∃ r, abnormal_record_of m tx = some r
           ∧ mon1.abnormal_transactions = mon.abnormal_transactions + 1
           ∧ abn1 = lastN 100 (abn ++ [r]))) := by
  unfold MorphTransactionMonitor.process_new_tx at h
  cases hc : m.is_target_pair_transaction tx with
  | error e => rw [hc] at h; cases h
  | ok b =>
      rw [hc] at h
      cases b with
      | true =>
          cases h
          refine ⟨rfl, rfl, rfl, .inl ⟨?_, rfl, rfl⟩⟩
          simp [abnormal_record_of, hc]
      | false =>
          cases hb : build_abnormal_tx tx with
          | error e => rw [hb] at h; cases h
          | ok r =>
              rw [hb] at h
              cases h
              refine ⟨rfl, rfl, rfl, .inr ⟨r, ?_, rfl, rfl⟩⟩
              simp [abnormal_record_of, hc, hb]

theorem process_all_ok (m : MorphTransactionMonitor) (txs : List Tx)
    (mon : Monitoring) (abn : List AbnormalTx) (mon2 : Monitoring)
    (abn2 : List AbnormalTx)
    (h : m.process_all txs mon abn = .ok (mon2, abn2)) :
    mon2.start_time = mon.start_time
    ∧ mon2.last_processed_tx = mon.last_processed_tx
    ∧ mon2.total_transactions = mon.total_transactions + txs.length
    ∧ mon2.abnormal_transactions = mon.abnormal_transactions
        + (txs.filterMap (abnormal_record_of m)).length
    ∧ (abn.length ≤ 100 →
        abn2 = lastN 100 (abn ++ txs.filterMap (abnormal_record_of m))) := by
  induction txs generalizing mon abn with
  | nil =>
      unfold MorphTransactionMonitor.process_all at h
      cases h
      refine ⟨rfl, rfl, by simp, by simp, fun hle => ?_⟩
      rw [List.filterMap_nil, List.append_nil, lastN_of_length_le _ _ hle]
  | cons tx rest ih =>
      unfold MorphTransactionMonitor.process_all at h
      cases hstep : m.process_new_tx tx mon abn with
      | error e => rw [hstep] at h; cases h
      | ok p =>
          obtain ⟨mon1, abn1⟩ := p
          rw [hstep] at h
          obtain ⟨hs1, hs2, hs3, hs4⟩ := process_new_tx_ok m tx mon mon1 abn abn1 hstep
          obtain ⟨hr1, hr2, hr3, hr4, hr5⟩ := ih mon1 abn1 h
          rcases hs4 with ⟨hrec, habncnt, habn⟩ | ⟨r, hrec, habncnt, habn⟩
          · refine ⟨hr1.trans hs1, hr2.trans hs2, ?_, ?_, fun hle => ?_⟩
            · rw [hr3, hs3, List.length_cons]; omega
            · rw [hr4, habncnt, List.filterMap_cons, hrec]
            · rw [List.filterMap_cons, hrec, ← habn]
              exact hr5 (by rw [habn]; exact hle)
          · refine ⟨hr1.trans hs1, hr2.trans hs2, ?_, ?_, fun hle => ?_⟩
            · rw [hr3, hs3, List.length_cons]; omega
            · rw [hr4, habncnt, List.filterMap_cons, hrec, List.length_cons]
              omega
            · rw [List.filterMap_cons, hrec]
              have h1 : abn1.length ≤ 100 := by
                rw [habn]; exact lastN_length_le 100 _
              rw [hr5 h1, habn, lastN_append_lastN, List.append_assoc,
                  List.singleton_append]

theorem analyze_core_ok (m : MorphTransactionMonitor) (now : Int)
    (items : List Tx) (d d1 : Data) (mon0 : Monitoring)
    (hmon : d.monitoring = some mon0)
    (h : m.analyze_core now items d = .ok d1) :
    ∃ mon2, d1.monitoring = some mon2
      ∧ d1.config = d.config
      ∧ mon2.last_processed_tx
          = (match items with
             | [] => mon0.last_processed_tx
             | tx0 :: _ => some tx0.hash)
      ∧ mon2.total_transactions = mon0.total_transactions
          + (collectNew mon0.last_processed_tx items).length
      ∧ mon2.abnormal_transactions = mon0.abnormal_transactions
          + ((collectNew mon0.last_processed_tx items).reverse.filterMap
               (abnormal_record_of m)).length
      ∧ (d.abnormal_txs.length ≤ 100 →
          d1.abnormal_txs = lastN 100 (d.abnormal_txs
            ++ (collectNew mon0.last_processed_tx items).reverse.filterMap
                 (abnormal_record_of m))) := by
  unfold MorphTransactionMonitor.analyze_core at h
  simp only [hmon] at h
  set monR := (if start_time_truthy mon0.start_time then mon0
               else { mon0 with start_time := some (PyTime.dt now) }) with hR
  have hRl : monR.last_processed_tx = mon0.last_processed_tx := by
    rw [hR]; split <;> rfl
  have hRt : monR.total_transactions = mon0.total_transactions := by
    rw [hR]; split <;> rfl
  have hRa : monR.abnormal_transactions = mon0.abnormal_transactions := by
    rw [hR]; split <;> rfl
  cases items with
  | nil =>
      simp only [collectNew, List.reverse_nil,
                 MorphTransactionMonitor.process_all] at h
      cases h
      refine ⟨monR, rfl, rfl, hRl, ?_, ?_, fun hle => ?_⟩
      · simp [collectNew, hRt]
      · simp [collectNew, hRa]
      · simp only [collectNew, List.reverse_nil, List.filterMap_nil,
                   List.append_nil]
        exact (lastN_of_length_le _ _ hle).symm
  | cons tx0 rest =>
      split at h
      · exact absurd h (by simp)
      · rename_i mon2 abn2 heq
        cases h
        obtain ⟨hp1, hp2, hp3, hp4, hp5⟩ :=
          process_all_ok m _ _ _ _ _ heq
        refine ⟨mon2, rfl, rfl, ?_, ?_, ?_, fun hle => ?_⟩
        · rw [hp2]
        · rw [hp3, List.length_reverse, hRt, hRl]
        · rw [hp4, hRa, hRl]
        · rw [hp5 hle, hRl]

/-! ## Claim theorems -/

/-- C2: `is_target_pair_transaction` returns `false` for every
transaction with no destination address; it returns `true` exactly when
the case-normalized destination address equals one of the configured
DEX-router contract addresses or one of the two configured token
contract addresses of the monitored pair; and it returns `false`
(without raising) for every other destination address, provided both
token addresses are configured. -/
theorem C2_classifier (m : MorphTransactionMonitor) (b q : String)
    (hb : m.base_token_address = some b)
    (hq : m.quote_token_address = some q) (tx : Tx) :
    (tx.«to».truthy = false → m.is_target_pair_transaction tx = .ok false)
    ∧ (m.is_target_pair_transaction tx = .ok true ↔
        (tx.«to».truthy = true
         ∧ (py_lower (tx.«to».hashD "") ∈ DEX_CONTRACTS.map (·.snd)
            ∨ py_lower (tx.«to».hashD "") = py_lower b
            ∨ py_lower (tx.«to».hashD "") = py_lower q)))
    ∧ (m.is_target_pair_transaction tx = .ok true
       ∨ m.is_target_pair_transaction tx = .ok false) := by
  unfold MorphTransactionMonitor.is_target_pair_transaction
  rw [hb, hq]
  by_cases ht : tx.«to».truthy
  · simp only [ht, Bool.not_true, Bool.false_eq_true, if_false]
    by_cases hd : py_lower (tx.«to».hashD "") ∈ DEX_CONTRACTS.map (·.snd)
    · have hd' : (DEX_CONTRACTS.map (·.snd)).contains
          (py_lower (tx.«to».hashD "")) = true := List.elem_iff.mpr hd
      simp [hd', hd]
    · have hd' : (DEX_CONTRACTS.map (·.snd)).contains
          (py_lower (tx.«to».hashD "")) = false := by
        rw [Bool.eq_false_iff]
        intro hc
        exact hd (List.elem_iff.mp hc)
      simp only [hd', Bool.false_eq_true, if_false]
      constructor
      · intro hcontra
        exact absurd hcontra (by simp)
      constructor
      · constructor
        · intro hok
          refine ⟨by trivial, .inr ?_⟩
          have := Except.ok.inj hok
          rcases Bool.or_eq_true .. |>.mp this with h1 | h2
          · exact .inl (eq_of_beq h1)
          · exact .inr (eq_of_beq h2)
        · rintro ⟨-, hmem | hb1 | hq1⟩
          · exact absurd hmem hd
          · simp [hb1]
          · simp [hq1]
      · by_cases h1 : py_lower (tx.«to».hashD "") == py_lower b
        · simp [h1]
        · by_cases h2 : py_lower (tx.«to».hashD "") == py_lower q
          · simp [h2]
          · simp [h1, h2]
  · have ht' : tx.«to».truthy = false := Bool.eq_false_iff.mpr ht
    simp [ht']

/-- C1: with a non-empty fetched page (ordered newest-first), a
successful `analyze_transactions` core pass collects as new exactly the
prefix of the page strictly before the first item whose hash equals
`last_processed_tx` (the whole page when none matches or the mark is
unset), processes the new items oldest-first (their abnormal records
are appended in reversed page order), counts every new item, and leaves
`last_processed_tx` equal to the hash of the page's position-0 item
regardless of how many items were new. -/
theorem C1_high_water_mark (m : MorphTransactionMonitor) (now : Int)
    (tx0 : Tx) (rest : List Tx) (items : List Tx) (d d1 : Data)
    (mon0 : Monitoring)
    (hmon : d.monitoring = some mon0)
    (hitems : items = tx0 :: rest)
    (hlen : d.abnormal_txs.length ≤ 100)
    (hok : m.analyze_core now items d = .ok d1) :
    collectNew mon0.last_processed_tx items
      = items.takeWhile
          (fun tx => !(decide (mon0.last_processed_tx = some tx.hash)))
    ∧ ∃ mon2, d1.monitoring = some mon2
        ∧ mon2.last_processed_tx = some tx0.hash
        ∧ mon2.total_transactions = mon0.total_transactions
            + (collectNew mon0.last_processed_tx items).length
        ∧ d1.abnormal_txs = lastN 100 (d.abnormal_txs
            ++ (collectNew mon0.last_processed_tx items).reverse.filterMap
                 (abnormal_record_of m)) := by
  obtain ⟨mon2, h1, h2, h3, h4, h5, h6⟩ :=
    analyze_core_ok m now items d d1 mon0 hmon hok
  subst hitems
  exact ⟨collectNew_eq_takeWhile .., mon2, h1, h3, h4, h6 hlen⟩

theorem save_data_convert_fields (d : Data) :
    (save_data_convert d).config = d.config
    ∧ (save_data_convert d).abnormal_txs = d.abnormal_txs
    ∧ (∀ mon, d.monitoring = some mon →
        ∃ mon', (save_data_convert d).monitoring = some mon'
          ∧ mon'.last_processed_tx = mon.last_processed_tx
          ∧ mon'.total_transactions = mon.total_transactions
          ∧ mon'.abnormal_transactions = mon.abnormal_transactions) := by
  obtain ⟨cfg, mo, abn⟩ := d
  cases mo with
  | none => exact ⟨rfl, rfl, fun mon h => by cases h⟩
  | some mon =>
      refine ⟨?_, ?_, ?_⟩
      · cases hst : mon.start_time with
        | none => simp [save_data_convert, hst]
        | some pt => cases pt <;> simp [save_data_convert, hst]
      · cases hst : mon.start_time with
        | none => simp [save_data_convert, hst]
        | some pt => cases pt <;> simp [save_data_convert, hst]
      · intro mon1 hmon1
        obtain rfl : mon1 = mon := by injection hmon1 with h; exact h.symm
        cases hst : mon1.start_time with
        | none => exact ⟨mon1, by simp [save_data_convert, hst]⟩
        | some pt =>
            cases pt with
            | dt t =>
                refine ⟨{ mon1 with start_time := some (.str (isoformat t)) },
                        by simp [save_data_convert, hst], rfl, rfl, rfl⟩
            | str s => exact ⟨mon1, by simp [save_data_convert, hst]⟩

theorem load_data_convert_fields (d : Data) :
    (load_data_convert d).config = d.config
    ∧ (load_data_convert d).abnormal_txs = d.abnormal_txs
    ∧ (∀ mon', (load_data_convert d).monitoring = some mon' →
        ∃ mon, d.monitoring = some mon
          ∧ mon'.last_processed_tx = mon.last_processed_tx
          ∧ mon'.total_transactions = mon.total_transactions
          ∧ mon'.abnormal_transactions = mon.abnormal_transactions) := by
  obtain ⟨cfg, mo, abn⟩ := d
  cases mo with
  | none => exact ⟨rfl, rfl, fun mon h => by cases h⟩
  | some mon =>
      refine ⟨?_, ?_, ?_⟩
      · cases hst : mon.start_time with
        | none => simp [load_data_convert, hst]
        | some pt =>
            cases pt with
            | dt t => simp [load_data_convert, hst]
            | str s =>
                by_cases hs : s == ""
                · simp [load_data_convert, hst, hs]
                · simp [load_data_convert, hst, hs]
      · cases hst : mon.start_time with
        | none => simp [load_data_convert, hst]
        | some pt =>
            cases pt with
            | dt t => simp [load_data_convert, hst]
            | str s =>
                by_cases hs : s == ""
                · simp [load_data_convert, hst, hs]
                · simp [load_data_convert, hst, hs]
      · intro mon' hmon'
        cases hst : mon.start_time with
        | none =>
            refine ⟨mon, rfl, ?_, ?_, ?_⟩ <;>
              · simp only [load_data_convert, hst] at hmon'
                cases hmon'; rfl
        | some pt =>
            cases pt with
            | dt t =>
                refine ⟨mon, rfl, ?_, ?_, ?_⟩ <;>
                  · simp only [load_data_convert, hst] at hmon'
                    cases hmon'; rfl
            | str s =>
                by_cases hs : s == ""
                · refine ⟨mon, rfl, ?_, ?_, ?_⟩ <;>
                    · simp only [load_data_convert, hst, hs, if_true] at hmon'
                      cases hmon'; rfl
                · refine ⟨mon, rfl, ?_, ?_, ?_⟩ <;>
                    · simp only [load_data_convert, hst, hs] at hmon'
                      simp only [Bool.false_eq_true, if_false] at hmon'
                      cases hmon'; rfl

theorem analyze_transactions_ok (m : MorphTransactionMonitor) (now : Int)
    (fetched : Option PageResp) (store : Option Data) (d1 : Data)
    (hok : m.analyze_transactions now fetched store = .ok (some d1)) :
    ∃ page items dc, fetched = some page ∧ page.items = some items
      ∧ m.analyze_core now items
          (match store with
           | some d => load_data_convert d
           | none => m.fresh_data now) = .ok dc
      ∧ d1 = save_data_convert dc := by
  unfold MorphTransactionMonitor.analyze_transactions at hok
  split at hok
  · cases hok
  · rename_i page
    split at hok
    · cases hok
    · rename_i items hpi
      split at hok
      · dsimp only [] at hok
        split at hok
        · cases hok
        · rename_i dc hc
          cases hok
          exact ⟨page, items, dc, rfl, hpi, hc, rfl⟩
      · dsimp only [] at hok
        split at hok
        · cases hok
        · rename_i dc hc
          cases hok
          exact ⟨page, items, dc, rfl, hpi, hc, rfl⟩

theorem loaded_counter_inv (m : MorphTransactionMonitor) (now : Int)
    (store : Option Data) (d0 : Data)
    (hd0 : (match store with
            | some d => load_data_convert d
            | none => m.fresh_data now) = d0)
    (hinv : ∀ d, store = some d → counter_inv d) :
    counter_inv d0 := by
  cases store with
  | none =>
      subst hd0
      intro mon hmon
      simp only [MorphTransactionMonitor.fresh_data] at hmon
      cases hmon
      exact Nat.le_refl 0
  | some d =>
      subst hd0
      intro mon hmon
      obtain ⟨-, -, hfwd⟩ := load_data_convert_fields d
      obtain ⟨mon0, hmon0, -, ht, ha⟩ := hfwd mon hmon
      rw [ht, ha]
      exact hinv d rfl mon0 hmon0

/-- C3: after every successful `analyze_transactions` cycle, the
persisted record still satisfies
`abnormal_transactions ≤ total_transactions`, assuming the loaded store
satisfied it: each processed new transaction increments the total
count, and increments the abnormal count only if additionally
classified abnormal. -/
theorem C3_abnormal_le_total (m : MorphTransactionMonitor) (now : Int)
    (fetched : Option PageResp) (store : Option Data) (d1 : Data)
    (hinv : ∀ d, store = some d → counter_inv d)
    (hok : m.analyze_transactions now fetched store = .ok (some d1)) :
    counter_inv d1 := by
  obtain ⟨page, items, dc, -, -, hc, rfl⟩ :=
    analyze_transactions_ok m now fetched store d1 hok
  set d0 := (match store with
             | some d => load_data_convert d
             | none => m.fresh_data now) with hd0
  have hinv0 := loaded_counter_inv m now store d0 hd0.symm hinv
  cases hm0 : d0.monitoring with
  | none =>
      unfold MorphTransactionMonitor.analyze_core at hc
      rw [hm0] at hc
      cases hc
  | some mon0 =>
      obtain ⟨mon2, hmon2, -, -, htot, habn, -⟩ :=
        analyze_core_ok m now items d0 dc mon0 hm0 hc
      intro mon' hmon'
      obtain ⟨-, -, hfwd⟩ := save_data_convert_fields dc
      obtain ⟨mon3, hmon3, -, ht3, ha3⟩ := hfwd mon2 hmon2
      rw [hmon3] at hmon'
      cases hmon'
      rw [ht3, ha3, htot, habn]
      have h1 := hinv0 mon0 hm0
      have h2 : ((collectNew mon0.last_processed_tx items).reverse.filterMap
          (abnormal_record_of m)).length
          ≤ (collectNew mon0.last_processed_tx items).length := by
        calc ((collectNew mon0.last_processed_tx items).reverse.filterMap
                (abnormal_record_of m)).length
            ≤ (collectNew mon0.last_processed_tx items).reverse.length :=
              List.length_filterMap_le ..
          _ = (collectNew mon0.last_processed_tx items).length :=
              List.length_reverse ..
      omega

theorem loaded_abn_le (m : MorphTransactionMonitor) (now : Int)
    (store : Option Data) (d0 : Data)
    (hd0 : (match store with
            | some d => load_data_convert d
            | none => m.fresh_data now) = d0)
    (hlen : ∀ d, store = some d → d.abnormal_txs.length ≤ 100) :
    d0.abnormal_txs.length ≤ 100 := by
  cases store with
  | none =>
      subst hd0
      simp [MorphTransactionMonitor.fresh_data]
  | some d =>
      subst hd0
      obtain ⟨-, habn, -⟩ := load_data_convert_fields d
      rw [habn]
      exact hlen d rfl

/-- C4: the `abnormal_txs` ring kept by `analyze_transactions` never
exceeds 100 entries (assuming the loaded record respected the bound),
and eviction is oldest-first FIFO: appending a 101st record drops
exactly the oldest entry and keeps the most recent 100 in their
original relative order. -/
theorem C4_recent_abnormal_ring (m : MorphTransactionMonitor) (now : Int)
    (fetched : Option PageResp) (store : Option Data) (d1 : Data)
    (hlen : ∀ d, store = some d → d.abnormal_txs.length ≤ 100)
    (hok : m.analyze_transactions now fetched store = .ok (some d1)) :
    d1.abnormal_txs.length ≤ 100
    ∧ ∀ (xs : List AbnormalTx) (a : AbnormalTx), xs.length = 100 →
        lastN 100 (xs ++ [a]) = xs.drop 1 ++ [a] := by
  constructor
  · obtain ⟨page, items, dc, -, -, hc, rfl⟩ :=
      analyze_transactions_ok m now fetched store d1 hok
    set d0 := (match store with
               | some d => load_data_convert d
               | none => m.fresh_data now) with hd0
    have hlen0 := loaded_abn_le m now store d0 hd0.symm hlen
    cases hm0 : d0.monitoring with
    | none =>
        unfold MorphTransactionMonitor.analyze_core at hc
        rw [hm0] at hc
        cases hc
    | some mon0 =>
        obtain ⟨mon2, -, -, -, -, -, habn⟩ :=
          analyze_core_ok m now items d0 dc mon0 hm0 hc
        obtain ⟨-, habn', -⟩ := save_data_convert_fields dc
        rw [habn', habn hlen0]
        exact lastN_length_le ..
  · intro xs a hxs
    rw [lastN_eq_drop]
    have hl : (xs ++ [a]).length = 101 := by simp [hxs]
    rw [hl]
    have h1 : (101 : Nat) - 100 = 1 := rfl
    rw [h1, List.drop_append_of_le_length (by omega)]

/-- C5: when the upstream fetch fails (`get_transactions` returned
`None`) or the response lacks an `"items"` field,
`analyze_transactions` returns early without raising and without
writing the record back: the persisted store is untouched. -/
theorem C5_fetch_failure_no_mutation (m : MorphTransactionMonitor)
    (now : Int) (fetched : Option PageResp) (store : Option Data)
    (h : fetched = none ∨ ∃ page, fetched = some page ∧ page.items = none) :
    m.analyze_transactions now fetched store = .ok none := by
  rcases h with rfl | ⟨page, rfl, hpi⟩
  · rfl
  · unfold MorphTransactionMonitor.analyze_transactions
    dsimp only []
    rw [hpi]

theorem load_data_convert_fields_fwd (d : Data) (mon : Monitoring)
    (hmon : d.monitoring = some mon) :
    ∃ mon', (load_data_convert d).monitoring = some mon'
      ∧ mon'.last_processed_tx = mon.last_processed_tx
      ∧ mon'.total_transactions = mon.total_transactions
      ∧ mon'.abnormal_transactions = mon.abnormal_transactions := by
  obtain ⟨cfg, mo, abn⟩ := d
  cases mo with
  | none => cases hmon
  | some mon1 =>
      obtain rfl : mon1 = mon := by injection hmon
      cases hst : mon1.start_time with
      | none => exact ⟨mon1, by simp [load_data_convert, hst]⟩
      | some pt =>
          cases pt with
          | dt t => exact ⟨mon1, by simp [load_data_convert, hst]⟩
          | str s =>
              by_cases hs : s == ""
              · exact ⟨mon1, by simp [load_data_convert, hst, hs]⟩
              · refine ⟨{ mon1 with start_time := some (.dt (fromiso s)) },
                        ?_, rfl, rfl, rfl⟩
                simp only [load_data_convert, hst, hs]
                simp

theorem analyze_core_no_new (m : MorphTransactionMonitor) (now : Int)
    (tx0 : Tx) (rest : List Tx) (d : Data) (mon : Monitoring)
    (hmon : d.monitoring = some mon)
    (hlast : mon.last_processed_tx = some tx0.hash) :
    ∃ mon2, m.analyze_core now (tx0 :: rest) d
        = .ok { d with monitoring := some mon2 }
      ∧ mon2.last_processed_tx = some tx0.hash
      ∧ mon2.total_transactions = mon.total_transactions
      ∧ mon2.abnormal_transactions = mon.abnormal_transactions := by
  unfold MorphTransactionMonitor.analyze_core
  simp only [hmon]
  set monR := (if start_time_truthy mon.start_time then mon
               else { mon with start_time := some (PyTime.dt now) }) with hR
  have hRl : monR.last_processed_tx = some tx0.hash := by
    rw [hR]; split
    · exact hlast
    · exact hlast
  have hRt : monR.total_transactions = mon.total_transactions := by
    rw [hR]; split <;> rfl
  have hRa : monR.abnormal_transactions = mon.abnormal_transactions := by
    rw [hR]; split <;> rfl
  have hcoll : collectNew monR.last_processed_tx (tx0 :: rest) = [] := by
    simp [collectNew, hRl]
  refine ⟨{ monR with last_processed_tx := some tx0.hash }, ?_, rfl,
          hRt, hRa⟩
  rw [hcoll]
  simp [MorphTransactionMonitor.process_all]

/-- C8: `analyze_transactions` is idempotent against an unchanged
upstream: after a successful cycle on a non-empty page, running a
second cycle on the identical page finds zero new transactions (the
newest item's hash equals the stored `last_processed_tx`) and leaves
`total_transactions`, `abnormal_transactions` and `abnormal_txs`
unchanged. -/
theorem C8_idempotent (m : MorphTransactionMonitor) (now1 now2 : Int)
    (tx0 : Tx) (rest : List Tx) (store : Option Data) (d1 : Data)
    (h1 : m.analyze_transactions now1 (some ⟨some (tx0 :: rest)⟩) store
            = .ok (some d1)) :
    ∃ mon1, d1.monitoring = some mon1
      ∧ collectNew mon1.last_processed_tx (tx0 :: rest) = []
      ∧ ∃ d2 mon2,
          m.analyze_transactions now2 (some ⟨some (tx0 :: rest)⟩) (some d1)
            = .ok (some d2)
          ∧ d2.monitoring = some mon2
          ∧ mon2.total_transactions = mon1.total_transactions
          ∧ mon2.abnormal_transactions = mon1.abnormal_transactions
          ∧ d2.abnormal_txs = d1.abnormal_txs := by
  obtain ⟨page, items, dc, hpage, hitems, hc, rfl⟩ :=
    analyze_transactions_ok m now1 (some ⟨some (tx0 :: rest)⟩) store d1 h1
  obtain rfl : page = ⟨some (tx0 :: rest)⟩ := by injection hpage with h; exact h.symm
  obtain rfl : items = tx0 :: rest := by injection hitems with h; exact h.symm
  set d0 := (match store with
             | some d => load_data_convert d
             | none => m.fresh_data now1) with hd0
  cases hm0 : d0.monitoring with
  | none =>
      unfold MorphTransactionMonitor.analyze_core at hc
      rw [hm0] at hc
      cases hc
  | some mon0 =>
      obtain ⟨mc, hmc, -, hmclast, -, -, -⟩ :=
        analyze_core_ok m now1 (tx0 :: rest) d0 dc mon0 hm0 hc
      obtain ⟨-, habn1, hfwd1⟩ := save_data_convert_fields dc
      obtain ⟨mon1, hmon1, hl1, ht1, ha1⟩ := hfwd1 mc hmc
      have hlast1 : mon1.last_processed_tx = some tx0.hash := by
        rw [hl1]; exact hmclast
      refine ⟨mon1, hmon1, by simp [collectNew, hlast1], ?_⟩
      obtain ⟨mon1', hmon1', hl1', ht1', ha1'⟩ :=
        load_data_convert_fields_fwd (save_data_convert dc) mon1 hmon1
      obtain ⟨mon2, hcore2, -, ht2, ha2⟩ :=
        analyze_core_no_new m now2 tx0 rest
          (load_data_convert (save_data_convert dc)) mon1' hmon1'
          (by rw [hl1']; exact hlast1)
      obtain ⟨-, habn2, hfwd2⟩ :=
        save_data_convert_fields
          { load_data_convert (save_data_convert dc) with monitoring := some mon2 }
      obtain ⟨mon2', hmon2', -, ht2', ha2'⟩ := hfwd2 mon2 rfl
      refine ⟨_, mon2', ?_, hmon2', ?_, ?_, ?_⟩
      · unfold MorphTransactionMonitor.analyze_transactions
        dsimp only []
        rw [hcore2]
      · rw [ht2', ht2, ht1', ht1]
      · rw [ha2', ha2, ha1', ha1]
      · rw [habn2]
        obtain ⟨-, habnload, -⟩ :=
          load_data_convert_fields (save_data_convert dc)
        exact habnload

/-- C6 counterexample: `save_data` is not write-then-replace.  Its
operation sequence opens the data file in truncate mode and then
writes; executing only the first operation (a crash or error between
the truncate and the write) leaves the file empty — neither the
previous record `"OLD"` nor the new record `"NEW"` — so a write failure
does not leave the previous on-disk record intact, a reader can
observe a partially written (empty) record, and the sequence contains
no rename step. -/
theorem C6_not_atomic_counterexample :
    fsOld "transaction_data.json" = some "OLD"
    ∧ (applyOps ((save_data_ops "transaction_data.json" "NEW").take 1) fsOld)
        "transaction_data.json" = some ""
    ∧ (some "" : Option String) ≠ some "OLD"
    ∧ (some "" : Option String) ≠ some "NEW"
    ∧ (save_data_ops "transaction_data.json" "NEW").all
        (fun op => !(op.is_rename)) = true := by
  refine ⟨rfl, rfl, by decide, by decide, rfl⟩

/-- C6 amended: `save_data` writes the record in place — it truncates
the data file and then writes the new content, with no
temporary-file-and-rename step.  A completed save leaves exactly the
new serialized record, but the intermediate state after the truncate is
an empty file, so the write is not atomic from a reader's perspective
and a failure between the two operations loses the previous record. -/
theorem C6_save_in_place_truncate (dataFile content : String) (fs : FS) :
    (applyOps (save_data_ops dataFile content) fs) dataFile = some content
    ∧ (applyOps ((save_data_ops dataFile content).take 1) fs) dataFile
        = some ""
    ∧ (save_data_ops dataFile content).all (fun op => !(op.is_rename))
        = true := by
  refine ⟨?_, ?_, rfl⟩
  · simp [applyOps, save_data_ops, applyOp]
  · simp [applyOps, save_data_ops, applyOp]

/-- C7: an unknown token symbol does not fail fast at construction —
`__init__` silently stores `None` for the unknown address
(`dict.get`), and the failure instead surfaces mid-cycle: classifying
any transaction whose destination is not a DEX router raises
`AttributeError` inside `is_target_pair_transaction` (line 130), so a
whole poll cycle on such a page raises instead of completing. -/
theorem C7_unknown_token_not_fail_fast :
    mDOGE.base_token_address = none
    ∧ mDOGE.quote_token_address
        = some "0x579C032A137D796f29b14AdEcb58C2E56B14e367"
    ∧ mDOGE.is_target_pair_transaction txOther = .error .attributeError
    ∧ mDOGE.analyze_transactions 0 (some ⟨some [txOther]⟩) none
        = .error .attributeError := by
  refine ⟨rfl, rfl, by decide, by decide⟩

/-- C9: the backward-compatibility repair is broken for a record
missing the `monitoring` key: `get_stats` recreates the block and calls
`save_data`, which replaces the fresh `datetime` start time by its
string form in place, so the subsequent `now - start_time` raises
`TypeError` and the status query fails instead of completing.  A
record whose `start_time` is `null` is reported successfully (duration
`"Not started"`), without being repaired by the status path. -/
theorem C9_missing_monitoring_repair_crashes :
    get_stats 1000 (some dNoMonitoring) = .error .typeError
    ∧ get_stats 1000 (some dNullStart)
        = .ok (.ok { start_time := none
                     current_time := isoformat 1000
                     monitoring_duration := "Not started"
                     monitored_address := "0xmonitoredaddr"
                     base_token := "ETH"
                     base_token_address :=
                       some "0x5300000000000000000000000000000000000011"
                     quote_token := "MPH"
                     quote_token_address :=
                       some "0x579C032A137D796f29b14AdEcb58C2E56B14e367"
                     dex_contracts := DEX_CONTRACTS
                     total_transactions := 3
                     abnormal_transactions := 1
                     recent_abnormal_transactions := [] }) := by
  refine ⟨by decide, by decide⟩

/-- C10: `save_data` is not read-only on its argument: for every record
whose `start_time` is set as a `datetime` instant, saving replaces the
caller's in-memory `start_time` by its ISO string form (leaving the
other monitoring fields unchanged), and any later use of that field as
an instant — subtracting it from the current time — raises `TypeError`
instead of producing a duration. -/
theorem C10_save_mutates_start_time (d : Data) (mon : Monitoring)
    (t now : Int) (hmon : d.monitoring = some mon)
    (hst : mon.start_time = some (.dt t)) :
    ∃ mon', (save_data_convert d).monitoring = some mon'
      ∧ mon'.start_time = some (.str (isoformat t))
      ∧ mon'.last_processed_tx = mon.last_processed_tx
      ∧ mon'.total_transactions = mon.total_transactions
      ∧ mon'.abnormal_transactions = mon.abnormal_transactions
      ∧ datetime_sub now (.str (isoformat t)) = .error .typeError := by
  obtain ⟨cfg, mo, abn⟩ := d
  cases mo with
  | none => cases hmon
  | some mon1 =>
      obtain rfl : mon1 = mon := by injection hmon
      refine ⟨{ mon1 with start_time := some (.str (isoformat t)) },
              ?_, rfl, rfl, rfl, rfl, rfl⟩
      simp [save_data_convert, hst]

/-- Witness for C1 at the spec's concrete scenario: page
`[A, B, C, D]` (newest first) with high-water mark `C` yields new set
`[A, B]`, abnormal records appended as `B` then `A` (oldest first),
total count advanced by 2, and final high-water mark `A`. -/
theorem C1_high_water_mark_witness :
    dFix.monitoring = some monFix
    ∧ pageABCD = txA :: [txB, txC, txD]
    ∧ dFix.abnormal_txs.length ≤ 100
    ∧ mETH.analyze_core 50 pageABCD dFix = .ok d1Fix
    ∧ (collectNew monFix.last_processed_tx pageABCD
        = pageABCD.takeWhile
            (fun tx => !(decide (monFix.last_processed_tx = some tx.hash)))
      ∧ ∃ mon2, d1Fix.monitoring = some mon2
          ∧ mon2.last_processed_tx = some txA.hash
          ∧ mon2.total_transactions = monFix.total_transactions
              + (collectNew monFix.last_processed_tx pageABCD).length
          ∧ d1Fix.abnormal_txs = lastN 100 (dFix.abnormal_txs
              ++ (collectNew monFix.last_processed_tx pageABCD).reverse.filterMap
                   (abnormal_record_of mETH))) :=
  ⟨rfl, rfl, by decide, by decide,
   C1_high_water_mark mETH 50 txA [txB, txC, txD] pageABCD dFix d1Fix monFix
     rfl rfl (by decide) (by decide)⟩

/-- Witness for C2 on the ETH/MPH monitor and a transaction sent to
the UniversalRouter address in mixed case. -/
theorem C2_classifier_witness :
    mETH.base_token_address
        = some "0x5300000000000000000000000000000000000011"
    ∧ mETH.quote_token_address
        = some "0x579C032A137D796f29b14AdEcb58C2E56B14e367"
    ∧ ((txRouter.«to».truthy = false →
          mETH.is_target_pair_transaction txRouter = .ok false)
      ∧ (mETH.is_target_pair_transaction txRouter = .ok true ↔
          (txRouter.«to».truthy = true
           ∧ (py_lower (txRouter.«to».hashD "") ∈ DEX_CONTRACTS.map (·.snd)
              ∨ py_lower (txRouter.«to».hashD "")
                  = py_lower "0x5300000000000000000000000000000000000011"
              ∨ py_lower (txRouter.«to».hashD "")
                  = py_lower "0x579C032A137D796f29b14AdEcb58C2E56B14e367")))
      ∧ (mETH.is_target_pair_transaction txRouter = .ok true
         ∨ mETH.is_target_pair_transaction txRouter = .ok false)) :=
  ⟨rfl, rfl,
   C2_classifier mETH "0x5300000000000000000000000000000000000011"
     "0x579C032A137D796f29b14AdEcb58C2E56B14e367" rfl rfl txRouter⟩

/-- Witness for C3: a full cycle on `pageABCD` from `dFix` (3 ≤ 7
before) yields a record with 5 ≤ 9. -/
theorem C3_abnormal_le_total_witness :
    (∀ d, (some dFix : Option Data) = some d → counter_inv d)
    ∧ mETH.analyze_transactions 50 (some ⟨some pageABCD⟩) (some dFix)
        = .ok (some d1FixSaved)
    ∧ counter_inv d1FixSaved := by
  have hinv : ∀ d, (some dFix : Option Data) = some d → counter_inv d := by
    intro d hd mon hmon
    cases hd
    simp only [dFix] at hmon
    cases hmon
    decide
  have hok : mETH.analyze_transactions 50 (some ⟨some pageABCD⟩) (some dFix)
      = .ok (some d1FixSaved) := by decide
  exact ⟨hinv, hok,
    C3_abnormal_le_total mETH 50 (some ⟨some pageABCD⟩) (some dFix)
      d1FixSaved hinv hok⟩

/-- Witness for C4 on the same cycle: the resulting ring has 2 ≤ 100
entries, and the eviction equation holds. -/
theorem C4_recent_abnormal_ring_witness :
    (∀ d, (some dFix : Option Data) = some d → d.abnormal_txs.length ≤ 100)
    ∧ mETH.analyze_transactions 50 (some ⟨some pageABCD⟩) (some dFix)
        = .ok (some d1FixSaved)
    ∧ (d1FixSaved.abnormal_txs.length ≤ 100
       ∧ ∀ (xs : List AbnormalTx) (a : AbnormalTx), xs.length = 100 →
           lastN 100 (xs ++ [a]) = xs.drop 1 ++ [a]) := by
  have hlen : ∀ d, (some dFix : Option Data) = some d →
      d.abnormal_txs.length ≤ 100 := by
    intro d hd
    cases hd
    decide
  have hok : mETH.analyze_transactions 50 (some ⟨some pageABCD⟩) (some dFix)
      = .ok (some d1FixSaved) := by decide
  exact ⟨hlen, hok,
    C4_recent_abnormal_ring mETH 50 (some ⟨some pageABCD⟩) (some dFix)
      d1FixSaved hlen hok⟩

/-- Witness for C5: a failed fetch (`None` response) leaves the cycle
with no write and no exception. -/
theorem C5_fetch_failure_no_mutation_witness :
    ((none : Option PageResp) = none
     ∨ ∃ page, (none : Option PageResp) = some page ∧ page.items = none)
    ∧ mETH.analyze_transactions 50 none (some dFix) = .ok none :=
  ⟨.inl rfl,
   C5_fetch_failure_no_mutation mETH 50 none (some dFix) (.inl rfl)⟩

/-- Witness for C8: rerunning the cycle on the identical page
`[A, B, C, D]` right after a successful cycle finds zero new
transactions and leaves the counters and the abnormal ring unchanged. -/
theorem C8_idempotent_witness :
    mETH.analyze_transactions 50 (some ⟨some (txA :: [txB, txC, txD])⟩)
        (some dFix) = .ok (some d1FixSaved)
    ∧ ∃ mon1, d1FixSaved.monitoring = some mon1
        ∧ collectNew mon1.last_processed_tx (txA :: [txB, txC, txD]) = []
        ∧ ∃ d2 mon2,
            mETH.analyze_transactions 60 (some ⟨some (txA :: [txB, txC, txD])⟩)
                (some d1FixSaved) = .ok (some d2)
            ∧ d2.monitoring = some mon2
            ∧ mon2.total_transactions = mon1.total_transactions
            ∧ mon2.abnormal_transactions = mon1.abnormal_transactions
            ∧ d2.abnormal_txs = d1FixSaved.abnormal_txs :=
  ⟨by decide,
   C8_idempotent mETH 50 60 txA [txB, txC, txD] (some dFix) d1FixSaved
     (by decide)⟩

/-- Witness for C10 on `dFix`: saving turns the in-memory start time
`100` into the string `isoformat 100`, and subtracting it afterwards
raises `TypeError`. -/
theorem C10_save_mutates_start_time_witness :
    dFix.monitoring = some monFix
    ∧ monFix.start_time = some (.dt 100)
    ∧ ∃ mon', (save_data_convert dFix).monitoring = some mon'
        ∧ mon'.start_time = some (.str (isoformat 100))
        ∧ mon'.last_processed_tx = monFix.last_processed_tx
        ∧ mon'.total_transactions = monFix.total_transactions
        ∧ mon'.abnormal_transactions = monFix.abnormal_transactions
        ∧ datetime_sub 1000 (.str (isoformat 100)) = .error .typeError :=
  ⟨rfl, rfl, C10_save_mutates_start_time dFix monFix 100 1000 rfl rfl⟩
